import Mathlib

/-
Shallow embedding of `liveserver/test/testcases.py` from django-live-server.

The file under verification provides a cooperatively stoppable WSGI server for
live-server tests:
  * `_ImprovedEvent` — a `threading.Event` whose `wait` returns the flag value;
  * `StoppableWSGIServer` — a polling `serve_forever` / bounded `shutdown`;
  * `LiveServerThread` — runs the server on a background thread, capturing
    startup errors and signalling readiness;
  * `LiveServerTestCase.setUpClass` / `tearDownClass` — lifecycle glue.

Concurrency is embedded by making the environment explicit: the value of the
shared `__serving` flag observed at each loop check, the time at which a
concurrent `set()` lands on a latch, and the readability of the listening
socket at each poll wake-up are parameters of the Lean functions.  Exceptions
are identified by `Nat` tags; raising is modelled by returning the tag.
-/

/-! ### `_ImprovedEvent` (testcases.py lines 29-45)

`wait` acquires the condition lock, and if the flag is unset calls
`Condition.wait(timeout)`, then returns the flag.  `set()` runs under the same
lock, so the flag cannot change between the acquire and the check; a timed
model of the condition variable is enough.  Time is in seconds, discretised to
`Nat`.  `setAt = some t` means a concurrent `set()` lands at time `t` after
`wait` starts; `none` means no `set()` ever happens. -/

/-- Models `threading.Condition.wait` as seen from `_ImprovedEvent.wait` when
the flag was unset at entry: the caller wakes at the earlier of the notify
from `set()` (time `setAt`) and the timeout expiry; with neither it blocks
forever (`none`). -/
def condWait (setAt timeout : Option Nat) : Option Nat :=
  match setAt, timeout with
  | none, none => none
  | some ts, none => some ts
  | none, some tm => some tm
  | some ts, some tm => some (min ts tm)

/-- The value of the event flag at time `t`, given its value `flag0` when
`wait` started and the landing time of a concurrent `set()`. -/
def flagValueAt (flag0 : Bool) (setAt : Option Nat) (t : Nat) : Bool :=
  flag0 || (match setAt with
            | some ts => decide (ts ≤ t)
            | none => false)

/-- The time at which `_ImprovedEvent.wait` returns: immediately (`0`) when
the flag is already set, otherwise when `condWait` wakes; `none` when it
blocks indefinitely. -/
def wakeTime (flag0 : Bool) (setAt timeout : Option Nat) : Option Nat :=
  if flag0 then some 0 else condWait setAt timeout

/-- `_ImprovedEvent.wait(timeout)` (testcases.py lines 38-45): under the
condition lock, if the flag is unset, wait on the condition with the given
timeout; return the flag's value at that moment.  Result `none` models the
call never returning (flag unset, no timeout, no `set()`). -/
def ImprovedEvent.wait (flag0 : Bool) (setAt timeout : Option Nat) : Option Bool :=
  if flag0 then some true
  else (condWait setAt timeout).map (fun t => flagValueAt false setAt t)

/-! ### `StoppableWSGIServer` (testcases.py lines 48-119) -/

/-- State of a `StoppableWSGIServer`: the `__serving` flag, the flag of the
`__is_shut_down` `_ImprovedEvent` latch, whether `server_close()` has been
called on the listening socket (ghost), and the number of
`_handle_request_noblock` dispatch calls performed so far (ghost counter). -/
structure StoppableWSGIServer where
  serving : Bool
  is_shut_down : Bool
  socket_closed : Bool
  handled : Nat
  deriving DecidableEq, Repr

/-- One body execution of the `while self.__serving` loop in `serve_forever`
(lines 74-77): `select.select` reported readiness `readable k` at wake-up `k`;
if readable, `_handle_request_noblock()` dispatches one connection. -/
def StoppableWSGIServer.serveIter (readable : Nat → Bool) (k : Nat)
    (s : StoppableWSGIServer) : StoppableWSGIServer :=
  if readable k then { s with handled := s.handled + 1 } else s

/-- Ghost trace of the serve loop: the server state after the first `n` loop
bodies, starting at wake-up index `k`. -/
def StoppableWSGIServer.stateAfterFrom (readable : Nat → Bool) (k : Nat)
    (s : StoppableWSGIServer) : Nat → StoppableWSGIServer
  | 0 => s
  | n + 1 =>
      StoppableWSGIServer.stateAfterFrom readable (k + 1)
        (StoppableWSGIServer.serveIter readable k s) n

/-- The `while self.__serving:` loop of `serve_forever` (lines 74-78).
`servingObs k` is the value of the shared `__serving` flag read at the `k`-th
loop check (a concurrent `shutdown()` writes it to `False`); `readable k` is
whether `select` reports the listening socket readable at wake-up `k`.  `fuel`
bounds the number of checks modelled; `none` means the loop was still running
after `fuel` checks.  On exit (flag observed `False`) the loop performs
`self.__is_shut_down.set()`. -/
def StoppableWSGIServer.serveLoop (servingObs readable : Nat → Bool) :
    Nat → Nat → StoppableWSGIServer → Option StoppableWSGIServer
  | 0, _, _ => none
  | fuel + 1, k, s =>
      if servingObs k then
        StoppableWSGIServer.serveLoop servingObs readable fuel (k + 1)
          (StoppableWSGIServer.serveIter readable k s)
      else
        some { s with serving := false, is_shut_down := true }

/-- `StoppableWSGIServer.serve_forever` (lines 66-78): sets `__serving = True`,
clears the `__is_shut_down` latch, then runs the poll loop. -/
def StoppableWSGIServer.serve_forever (servingObs readable : Nat → Bool)
    (fuel : Nat) (s : StoppableWSGIServer) : Option StoppableWSGIServer :=
  StoppableWSGIServer.serveLoop servingObs readable fuel 0
    { s with serving := true, is_shut_down := false }

/-- The `RuntimeError` message raised by `shutdown` (lines 90-92). -/
def shutdownTimeoutMessage : String :=
  "Failed to shutdown the live test server in 2 seconds. The server might be stuck or generating a slow response."

/-- `StoppableWSGIServer.shutdown` (lines 80-92): sets `__serving = False`,
then waits on the `__is_shut_down` latch with timeout 2 seconds.  `setAt`
models when the serve loop (running in the other thread) performs
`__is_shut_down.set()` after observing the flag write.  Returns the updated
server state and `some message` when the `RuntimeError` is raised.  When the
wait returns `True` the latch flag is known to be set, and it is recorded in
the state. -/
def StoppableWSGIServer.shutdown (s : StoppableWSGIServer) (setAt : Option Nat) :
    StoppableWSGIServer × Option String :=
  let s' := { s with serving := false }
  match ImprovedEvent.wait s.is_shut_down setAt (some 2) with
  | some true => ({ s' with is_shut_down := true }, none)
  | _ => (s', some shutdownTimeoutMessage)

/-- Outcome of `get_request()` (an `accept` on the listening socket): a
connection identified by a `Nat`, or the `socket.error` that `accept` raises
on failure. -/
inductive AcceptResult where
  | conn (c : Nat)
  | sockError
  deriving DecidableEq, Repr

/-- Observable effects of one `_handle_request_noblock()` call: the accepted
connection if any, whether `process_request` was invoked, the exception
passed to `handle_error` if any, and whether `close_request` was called by
this function. -/
structure HandleOutcome where
  accepted : Option Nat
  processed : Bool
  error_reported : Option Nat
  conn_closed : Bool
  deriving DecidableEq, Repr

/-- `StoppableWSGIServer._handle_request_noblock` (lines 102-119):
`get_request()` under `try/except socket.error: return`; then, if
`verify_request` accepts the connection, `process_request` under
`try/except Exception`, whose handler calls `handle_error` and
`close_request`.  `proc c = some e` models `process_request` raising
exception `e`; `none` models success.  The function is total: no exception
propagates out of it. -/
def StoppableWSGIServer.handle_request_noblock (acc : AcceptResult)
    (verify : Nat → Bool) (proc : Nat → Option Nat) : HandleOutcome :=
  match acc with
  | .sockError => { accepted := none, processed := false, error_reported := none, conn_closed := false }
  | .conn c =>
      if verify c then
        match proc c with
        | none => { accepted := some c, processed := true, error_reported := none, conn_closed := false }
        | some e => { accepted := some c, processed := true, error_reported := some e, conn_closed := true }
      else
        { accepted := some c, processed := false, error_reported := none, conn_closed := false }

/-! ### `LiveServerThread` (testcases.py lines 139-181) -/

/-- State of a `LiveServerThread` visible to the controller: the `is_ready`
event flag, the captured `error` (a `Nat` exception tag, `None` ↦ `none`),
and the `httpd` attribute (`none` models the attribute being absent, i.e.
`hasattr(self, 'httpd')` false). -/
structure LiveServerThread where
  is_ready : Bool
  error : Option Nat
  httpd : Option StoppableWSGIServer
  deriving DecidableEq, Repr

/-- How one execution of `LiveServerThread.run` (lines 152-174) unfolds:
the handler construction raises; the `StoppableWSGIServer` constructor
(socket bind) raises; `serve_forever` raises after readiness was signalled,
with `s` the server state at the raise point; or `serve_forever` returns
normally after `shutdown()`, with final server state `s`. -/
inductive RunEvent where
  | handlerError (e : Nat)
  | bindError (e : Nat)
  | serveError (e : Nat) (s : StoppableWSGIServer)
  | serveReturns (s : StoppableWSGIServer)
  deriving DecidableEq, Repr

/-- `LiveServerThread.run` (lines 152-174), as the thread state it leaves
behind.  The whole body past the connection hand-off sits in a
`try/except Exception` whose handler stores the exception in `self.error` and
sets `self.is_ready`; on the success path `self.is_ready.set()` runs just
before `serve_forever()`.  `self.httpd` is only assigned if the constructor
returned, so it is absent on handler/bind failures.  The function is total:
`run` never propagates an exception. -/
def LiveServerThread.run : RunEvent → LiveServerThread
  | .handlerError e => { is_ready := true, error := some e, httpd := none }
  | .bindError e => { is_ready := true, error := some e, httpd := none }
  | .serveError e s => { is_ready := true, error := some e, httpd := some s }
  | .serveReturns s => { is_ready := true, error := none, httpd := some s }

/-- The value of `self.error` at the moment `self.is_ready` first becomes
set — i.e. what the controller's `is_ready.wait(); if error:` check in
`setUpClass` (lines 222-224) observes.  On setup failures the `except` block
assigns `self.error` before `self.is_ready.set()`, so the error is visible;
on the success path `is_ready` is set before `serve_forever`, so any later
serving error is not yet assigned. -/
def errorAtReady : RunEvent → Option Nat
  | .handlerError e => some e
  | .bindError e => some e
  | .serveError _ _ => none
  | .serveReturns _ => none

/-- Observable effects of one `LiveServerThread.join` call (lines 176-181):
the thread state afterwards, whether `self.httpd.shutdown()` was called,
whether `self.httpd.server_close()` was called, and the message of a raised
exception if any. -/
structure JoinResult where
  thread : LiveServerThread
  called_shutdown : Bool
  called_server_close : Bool
  raised : Option String
  deriving DecidableEq, Repr

/-- `LiveServerThread.join` (lines 176-181): if `hasattr(self, 'httpd')`,
call `self.httpd.shutdown()` then `self.httpd.server_close()`; then the
underlying `Thread.join` (no observable state here).  The `httpd` attribute
is never removed.  `setAt` is the latch-set timing passed through to
`shutdown`.  If `shutdown` raises, `server_close` is not reached and the
exception propagates out of `join`. -/
def LiveServerThread.join (t : LiveServerThread) (setAt : Option Nat) : JoinResult :=
  match t.httpd with
  | none =>
      { thread := t, called_shutdown := false, called_server_close := false, raised := none }
  | some s =>
      match StoppableWSGIServer.shutdown s setAt with
      | (s', none) =>
          { thread := { t with httpd := some { s' with socket_closed := true } },
            called_shutdown := true, called_server_close := true, raised := none }
      | (s', some m) =>
          { thread := { t with httpd := some s' },
            called_shutdown := true, called_server_close := false, raised := some m }

/-! ### `LiveServerTestCase.setUpClass` (testcases.py lines 200-226) -/

/-- The `settings_dict` fields of a database connection that `setUpClass`
inspects. -/
structure DBConn where
  engine : String
  name : String
  deriving DecidableEq, Repr

/-- The in-memory-sqlite test applied to each connection (lines 204-205). -/
def DBConn.isMemorySqlite (c : DBConn) : Bool :=
  c.engine = "django.db.backends.sqlite3" && c.name = ":memory:"

/-- The `for conn in connections.all()` loop (lines 203-206) raises on the
first in-memory sqlite connection; whether it raises at all is this. -/
def hasInMemorySqlite (conns : List DBConn) : Bool :=
  conns.any DBConn.isMemorySqlite

/-- The `NotImplementedError` message of line 206. -/
def inMemoryMessage : String :=
  "In memory database not supported by django-live-server. Define \x27TEST_NAME\x27 in your database settings to force use of sqlite."

/-- Python `str.split(sep)` with a one-character separator: splits on every
occurrence, keeping empty pieces, and yields `[\x22\x22]` on the empty
string. -/
def pySplitColonAux : List Char → List Char → List (List Char)
  | [], acc => [acc.reverse]
  | c :: rest, acc =>
      if c = ':' then acc.reverse :: pySplitColonAux rest []
      else pySplitColonAux rest (c :: acc)

/-- `addr.split(':')` as used on line 212. -/
def pySplitColon (s : String) : List String :=
  (pySplitColonAux s.data []).map (fun cs => String.mk cs)

/-- Python 2 `int(s)` on a string: optional surrounding whitespace, optional
sign, then one or more ASCII digits; `none` models the `ValueError` raised
otherwise (line 217 applies it to the port part). -/
def pyIntDigits : Option Nat → List Char → Option Nat
  | none, _ => none
  | some n, [] => some n
  | some n, c :: rest =>
      if c.isDigit then pyIntDigits (some (n * 10 + (c.toNat - 48))) rest
      else none

/-- The leading/trailing-whitespace strip `int()` applies to its string
argument. -/
def pyStrip (cs : List Char) : List Char :=
  ((cs.dropWhile fun c => c.isWhitespace).reverse.dropWhile
    (fun c => c.isWhitespace)).reverse

def pyInt (s : String) : Option Int :=
  match pyStrip s.data with
  | [] => none
  | '+' :: rest =>
      if rest = [] then none else (pyIntDigits (some 0) rest).map Int.ofNat
  | '-' :: rest =>
      if rest = [] then none else (pyIntDigits (some 0) rest).map (fun n => -(n : Int))
  | cs => (pyIntDigits (some 0) cs).map Int.ofNat

/-- How a `setUpClass` call terminates: one of the exceptions it can raise,
or success.  `raisedThreadError e` is the re-raise of the captured thread
error after the readiness wait (line 224); `valueError` is `int(port)`
failing (line 217); the first three are raised before the thread exists. -/
inductive SetUpResult where
  | notImplementedError (msg : String)
  | improperlyConfigured (msg : String)
  | valueError (badLiteral : String)
  | raisedThreadError (e : Nat)
  | ok (host : String) (port : Int)
  deriving DecidableEq, Repr

/-- Whether a `SetUpResult` is the `ImproperlyConfigured` of line 214. -/
def SetUpResult.isImproperlyConfigured : SetUpResult → Bool
  | .improperlyConfigured _ => true
  | _ => false

/-- Whether a `SetUpResult` is the `NotImplementedError` of line 206. -/
def SetUpResult.isNotImplemented : SetUpResult → Bool
  | .notImplementedError _ => true
  | _ => false

/-- `LiveServerTestCase.setUpClass` (lines 200-226).  `conns` is
`connections.all()`; `env` is the value of the
`DJANGO_LIVE_TEST_SERVER_ADDRESS` environment variable; `ev` is how the
spawned thread's `run` unfolds.  Returns how the call terminates, paired with
whether `cls.server_thread.start()` was reached (line 219).  In source
order: the in-memory-sqlite check; `host, port = addr.split(':')` inside
`try/except Exception` raising `ImproperlyConfigured`; `int(port)` evaluated
while building the `LiveServerThread` constructor arguments (outside the
`try`); `start()`; `is_ready.wait()` (which always returns, since `run` sets
the event on every path); the one-time `if error: raise` check. -/
def LiveServerTestCase.setUpClass (conns : List DBConn) (env : Option String)
    (ev : RunEvent) : SetUpResult × Bool :=
  if hasInMemorySqlite conns then
    (.notImplementedError inMemoryMessage, false)
  else
    match pySplitColon (env.getD "localhost:8081") with
    | [host, portStr] =>
        match pyInt portStr with
        | none => (.valueError portStr, false)
        | some p =>
            match errorAtReady ev with
            | some e => (.raisedThreadError e, true)
            | none => (.ok host p, true)
    | _ =>
        (.improperlyConfigured
          ("Invalid address (\x22" ++ env.getD "localhost:8081" ++ "\x22) for live server."), false)

/-! ### Preservation lemmas for the serve loop trace -/

theorem serveIter_is_shut_down (r : Nat → Bool) (k : Nat) (s : StoppableWSGIServer) :
    (StoppableWSGIServer.serveIter r k s).is_shut_down = s.is_shut_down := by
  unfold StoppableWSGIServer.serveIter
  split <;> rfl

theorem serveIter_serving (r : Nat → Bool) (k : Nat) (s : StoppableWSGIServer) :
    (StoppableWSGIServer.serveIter r k s).serving = s.serving := by
  unfold StoppableWSGIServer.serveIter
  split <;> rfl

theorem serveIter_socket_closed (r : Nat → Bool) (k : Nat) (s : StoppableWSGIServer) :
    (StoppableWSGIServer.serveIter r k s).socket_closed = s.socket_closed := by
  unfold StoppableWSGIServer.serveIter
  split <;> rfl

theorem serveIter_handled (r : Nat → Bool) (k : Nat) (s : StoppableWSGIServer) :
    (StoppableWSGIServer.serveIter r k s).handled =
      s.handled + (if r k then 1 else 0) := by
  unfold StoppableWSGIServer.serveIter
  split <;> simp

theorem stateAfterFrom_is_shut_down (r : Nat → Bool) :
    ∀ (n k : Nat) (s : StoppableWSGIServer),
      (StoppableWSGIServer.stateAfterFrom r k s n).is_shut_down = s.is_shut_down
  | 0, _, _ => rfl
  | n + 1, k, s => by
      show (StoppableWSGIServer.stateAfterFrom r (k + 1)
              (StoppableWSGIServer.serveIter r k s) n).is_shut_down = s.is_shut_down
      rw [stateAfterFrom_is_shut_down r n (k + 1), serveIter_is_shut_down]

theorem stateAfterFrom_serving (r : Nat → Bool) :
    ∀ (n k : Nat) (s : StoppableWSGIServer),
      (StoppableWSGIServer.stateAfterFrom r k s n).serving = s.serving
  | 0, _, _ => rfl
  | n + 1, k, s => by
      show (StoppableWSGIServer.stateAfterFrom r (k + 1)
              (StoppableWSGIServer.serveIter r k s) n).serving = s.serving
      rw [stateAfterFrom_serving r n (k + 1), serveIter_serving]

theorem stateAfterFrom_socket_closed (r : Nat → Bool) :
    ∀ (n k : Nat) (s : StoppableWSGIServer),
      (StoppableWSGIServer.stateAfterFrom r k s n).socket_closed = s.socket_closed
  | 0, _, _ => rfl
  | n + 1, k, s => by
      show (StoppableWSGIServer.stateAfterFrom r (k + 1)
              (StoppableWSGIServer.serveIter r k s) n).socket_closed = s.socket_closed
      rw [stateAfterFrom_socket_closed r n (k + 1), serveIter_socket_closed]

theorem stateAfterFrom_handled (r : Nat → Bool) :
    ∀ (n k : Nat) (s : StoppableWSGIServer),
      (StoppableWSGIServer.stateAfterFrom r k s n).handled =
        s.handled + (List.range' k n).countP r
  | 0, _, _ => by simp [StoppableWSGIServer.stateAfterFrom]
  | n + 1, k, s => by
      show (StoppableWSGIServer.stateAfterFrom r (k + 1)
              (StoppableWSGIServer.serveIter r k s) n).handled = _
      rw [stateAfterFrom_handled r n (k + 1), serveIter_handled, List.range'_succ,
        List.countP_cons]
      by_cases h : r k
      · simp only [h, if_true]
        omega
      · simp [h]

/-- The poll loop exits at the first check where the `__serving` flag is
observed `False`: after `n` checks that observed `True` (each running one
loop body) and one that observed `False`, the result is the trace state with
`serving` observed `False` and the `__is_shut_down` latch set. -/
theorem serveLoop_exit (so r : Nat → Bool) :
    ∀ (n fuel k : Nat) (s : StoppableWSGIServer), n < fuel →
      (∀ j, j < n → so (k + j) = true) → so (k + n) = false →
      StoppableWSGIServer.serveLoop so r fuel k s =
        some { StoppableWSGIServer.stateAfterFrom r k s n with
               serving := false, is_shut_down := true }
  | 0, fuel, k, s, hfuel, _, hstop => by
      obtain ⟨fuel', rfl⟩ : ∃ fuel', fuel = fuel' + 1 :=
        ⟨fuel - 1, (Nat.succ_pred_eq_of_pos hfuel).symm⟩
      have hk : so k = false := by simpa using hstop
      simp [StoppableWSGIServer.serveLoop, hk, StoppableWSGIServer.stateAfterFrom]
  | n + 1, fuel, k, s, hfuel, hserve, hstop => by
      obtain ⟨fuel', rfl⟩ : ∃ fuel', fuel = fuel' + 1 :=
        ⟨fuel - 1, (Nat.succ_pred_eq_of_pos (Nat.lt_of_le_of_lt (Nat.zero_le _) hfuel)).symm⟩
      have hk : so k = true := by simpa using hserve 0 (Nat.succ_pos n)
      have hserve' : ∀ j, j < n → so (k + 1 + j) = true := by
        intro j hj
        have := hserve (j + 1) (by omega)
        rwa [show k + (j + 1) = k + 1 + j by omega] at this
      have hstop' : so (k + 1 + n) = false := by
        rwa [show k + (n + 1) = k + 1 + n by omega] at hstop
      have ih := serveLoop_exit so r n fuel' (k + 1)
        (StoppableWSGIServer.serveIter r k s) (by omega) hserve' hstop'
      simp only [StoppableWSGIServer.serveLoop, hk, if_true]
      exact ih

/-! ### Claim theorems -/

/-- Claim C1: every call to `StoppableWSGIServer.serve_forever` first sets the
serving flag to true and clears the shutdown-complete latch (the trace at
`k = 0` is `{ s with serving := true, is_shut_down := false }`), then
repeatedly waits on the listening socket and, if readable, dispatches exactly
one connection per wake-up (`handled` grows by the number of readable
wake-ups); it loops until the serving flag is observed false — here after `n`
checks — and on loop exit sets the shutdown-complete latch.  The latch is
unset at every state inside the loop and set exactly on exit. -/
theorem serve_forever_spec (servingObs readable : Nat → Bool) (fuel n : Nat)
    (s : StoppableWSGIServer) (hfuel : n < fuel)
    (hserve : ∀ j, j < n → servingObs j = true) (hstop : servingObs n = false) :
    StoppableWSGIServer.serve_forever servingObs readable fuel s =
      some { serving := false, is_shut_down := true,
             socket_closed := s.socket_closed,
             handled := s.handled + (List.range n).countP readable } ∧
    (∀ k, (StoppableWSGIServer.stateAfterFrom readable 0
          { s with serving := true, is_shut_down := false } k).serving = true ∧
        (StoppableWSGIServer.stateAfterFrom readable 0
          { s with serving := true, is_shut_down := false } k).is_shut_down = false) := by
  constructor
  · unfold StoppableWSGIServer.serve_forever
    rw [serveLoop_exit servingObs readable n fuel 0
      { s with serving := true, is_shut_down := false } hfuel
      (by intro j hj; simpa using hserve j hj) (by simpa using hstop)]
    have hclosed := stateAfterFrom_socket_closed readable n 0
      { s with serving := true, is_shut_down := false }
    have hhandled := stateAfterFrom_handled readable n 0
      { s with serving := true, is_shut_down := false }
    simp only [Option.some.injEq]
    rw [show ({ StoppableWSGIServer.stateAfterFrom readable 0
          { s with serving := true, is_shut_down := false } n with
          serving := false, is_shut_down := true } : StoppableWSGIServer) =
        ⟨false, true,
          (StoppableWSGIServer.stateAfterFrom readable 0
            { s with serving := true, is_shut_down := false } n).socket_closed,
          (StoppableWSGIServer.stateAfterFrom readable 0
            { s with serving := true, is_shut_down := false } n).handled⟩ from rfl]
    rw [hclosed, hhandled, List.range_eq_range']
  · intro k
    constructor
    · rw [stateAfterFrom_serving]
    · rw [stateAfterFrom_is_shut_down]

/-- Witness for C1 at a concrete schedule: the serving flag is observed true
at checks 0 and 1, false at check 2; the socket is readable only at wake-up 0,
so exactly one connection is dispatched and the latch ends set. -/
theorem serve_forever_spec_witness :
    StoppableWSGIServer.serve_forever (fun k => decide (k < 2))
        (fun k => decide (k = 0)) 3
        { serving := false, is_shut_down := false, socket_closed := false, handled := 0 } =
      some { serving := false, is_shut_down := true, socket_closed := false, handled := 1 } := by
  have h := (serve_forever_spec (fun k => decide (k < 2)) (fun k => decide (k = 0)) 3 2
    { serving := false, is_shut_down := false, socket_closed := false, handled := 0 }
    (by decide) (by decide) (by decide)).1
  simpa using h

/-- Claim C2: `StoppableWSGIServer.shutdown` sets the serving flag to false
and blocks on the shutdown-complete latch for at most 2 seconds (the wake
time is defined and bounded by 2); if the latch is signalled within the bound
(already set, or set at most 2 seconds later) it returns without raising, and
otherwise it raises the "Failed to shutdown the live test server in 2
seconds" `RuntimeError` instead of hanging forever. -/
theorem shutdown_spec (s : StoppableWSGIServer) (setAt : Option Nat) :
    (StoppableWSGIServer.shutdown s setAt).1.serving = false ∧
    (∃ t, wakeTime s.is_shut_down setAt (some 2) = some t ∧ t ≤ 2) ∧
    ((s.is_shut_down = true ∨ ∃ u, setAt = some u ∧ u ≤ 2) →
      (StoppableWSGIServer.shutdown s setAt).2 = none) ∧
    (¬ (s.is_shut_down = true ∨ ∃ u, setAt = some u ∧ u ≤ 2) →
      (StoppableWSGIServer.shutdown s setAt).2 = some shutdownTimeoutMessage) := by
  obtain ⟨sv, latch, sc, hd⟩ := s
  cases latch
  · cases setAt
    · simp [StoppableWSGIServer.shutdown, ImprovedEvent.wait, wakeTime, condWait,
        flagValueAt]
    · rename_i u
      by_cases hu : u ≤ 2 <;>
        simp [StoppableWSGIServer.shutdown, ImprovedEvent.wait, wakeTime, condWait,
          flagValueAt, Nat.le_min, Nat.min_le_right, hu]
  · cases setAt
    · simp [StoppableWSGIServer.shutdown, ImprovedEvent.wait, wakeTime, condWait,
        flagValueAt]
    · simp [StoppableWSGIServer.shutdown, ImprovedEvent.wait, wakeTime, condWait,
        flagValueAt]

/-- Witness for C2: with the latch initially unset but signalled at time 1
(within the 2-second bound), `shutdown` returns without raising. -/
theorem shutdown_spec_witness :
    (StoppableWSGIServer.shutdown
        { serving := true, is_shut_down := false, socket_closed := false, handled := 0 }
        (some 1)).2 = none :=
  (shutdown_spec
      { serving := true, is_shut_down := false, socket_closed := false, handled := 0 }
      (some 1)).2.2.1 (Or.inr ⟨1, rfl, by decide⟩)

/-- Claim C4: `_ImprovedEvent.wait(timeout)` blocks until the flag is true or
the timeout elapses and returns the flag's value at return time (conjuncts 1
and 4); with the flag already true it returns `true` immediately, so a
`set()` that races with the start of `wait` is not lost (conjunct 2); with a
finite timeout it always returns a value — never raising on timeout expiry
(conjunct 3); and with no timeout, no `set()` and the flag unset it blocks
indefinitely (conjunct 5). -/
theorem improvedEvent_wait_spec (flag0 : Bool) (setAt timeout : Option Nat) :
    (ImprovedEvent.wait flag0 setAt timeout =
      (wakeTime flag0 setAt timeout).map (fun t => flagValueAt flag0 setAt t)) ∧
    (flag0 = true → ImprovedEvent.wait flag0 setAt timeout = some true) ∧
    ((∃ tm, timeout = some tm) → (ImprovedEvent.wait flag0 setAt timeout).isSome = true) ∧
    (∀ b, ImprovedEvent.wait flag0 setAt timeout = some b →
      ∃ t, wakeTime flag0 setAt timeout = some t ∧ b = flagValueAt flag0 setAt t) ∧
    (flag0 = false → setAt = none → timeout = none →
      ImprovedEvent.wait flag0 setAt timeout = none) := by
  cases flag0 <;> cases setAt <;> cases timeout <;>
    simp [ImprovedEvent.wait, wakeTime, condWait, flagValueAt]

/-- Witness for C4: flag initially unset, `set()` landing at time 1, timeout
2 — the wait returns a value (and in fact `true`). -/
theorem improvedEvent_wait_spec_witness :
    (ImprovedEvent.wait false (some 1) (some 2)).isSome = true :=
  (improvedEvent_wait_spec false (some 1) (some 2)).2.2.1 ⟨2, rfl⟩

/-- Claim C5: in `_handle_request_noblock`, a `socket.error` raised by
`get_request` is swallowed and the step returns with no further action
(conjunct 1); an exception raised by `process_request` is caught, reported
through `handle_error`, and the connection is closed with `close_request`
(conjunct 2); a successful dispatch reports nothing (conjunct 3).  The
embedding is a total function, so no exception propagates out of the step
into the poll loop. -/
theorem handle_request_noblock_spec (acc : AcceptResult) (verify : Nat → Bool)
    (proc : Nat → Option Nat) :
    (acc = .sockError →
      StoppableWSGIServer.handle_request_noblock acc verify proc =
        { accepted := none, processed := false, error_reported := none,
          conn_closed := false }) ∧
    (∀ c e, acc = .conn c → verify c = true → proc c = some e →
      (StoppableWSGIServer.handle_request_noblock acc verify proc).error_reported
          = some e ∧
      (StoppableWSGIServer.handle_request_noblock acc verify proc).conn_closed
          = true) ∧
    (∀ c, acc = .conn c → verify c = true → proc c = none →
      StoppableWSGIServer.handle_request_noblock acc verify proc =
        { accepted := some c, processed := true, error_reported := none,
          conn_closed := false }) := by
  refine ⟨?_, ?_, ?_⟩
  · intro h
    subst h
    rfl
  · intro c e h hv hp
    subst h
    simp [StoppableWSGIServer.handle_request_noblock, hv, hp]
  · intro c h hv hp
    subst h
    simp [StoppableWSGIServer.handle_request_noblock, hv, hp]

/-- Witness for C5: a failing accept (socket.error) is swallowed — the step
returns having done nothing. -/
theorem handle_request_noblock_spec_witness :
    StoppableWSGIServer.handle_request_noblock .sockError (fun _ => true)
        (fun _ => none) =
      { accepted := none, processed := false, error_reported := none,
        conn_closed := false } :=
  (handle_request_noblock_spec .sockError (fun _ => true) (fun _ => none)).1 rfl

/-- Claim C3: when an exception is raised during server setup in
`LiveServerThread.run` (handler construction or socket bind), `run`
terminates with that exact exception stored in the `error` slot, no `httpd`
reference, and the readiness latch set (conjuncts 1 and 2); for every
execution, a non-null `error` implies the readiness latch is set (conjunct
3); the controller's readiness wait in `setUpClass` then observes the
non-null error and re-raises that exact exception (conjuncts 4 and 5). -/
theorem run_setup_failure_spec (e : Nat) :
    (LiveServerThread.run (.handlerError e) =
      { is_ready := true, error := some e, httpd := none }) ∧
    (LiveServerThread.run (.bindError e) =
      { is_ready := true, error := some e, httpd := none }) ∧
    (∀ ev, (LiveServerThread.run ev).error ≠ none →
      (LiveServerThread.run ev).is_ready = true) ∧
    (errorAtReady (.bindError e) = some e) ∧
    (LiveServerTestCase.setUpClass [] none (.bindError e) =
      (.raisedThreadError e, true)) := by
  refine ⟨rfl, rfl, ?_, rfl, ?_⟩
  · intro ev _
    cases ev <;> rfl
  · have hmem : hasInMemorySqlite [] = false := by decide
    have hsplit : pySplitColon "localhost:8081" = ["localhost", "8081"] := by decide
    have hint : pyInt "8081" = some 8081 := by decide
    simp [LiveServerTestCase.setUpClass, hmem, hsplit, hint, errorAtReady]

/-- Witness for C3: a bind failure tagged `3` leaves the readiness latch
set. -/
theorem run_setup_failure_spec_witness :
    (LiveServerThread.run (.bindError 3)).is_ready = true :=
  (run_setup_failure_spec 3).2.2.1 (.bindError 3) (by decide)

/-- Claim C9 (implicit): the `except` in `LiveServerThread.run` also catches
an exception raised by `serve_forever` after readiness was signalled: the
final thread state then has a non-null `error` together with a present
`httpd` reference and the latch set — so a non-null error slot does not imply
that startup failed (conjunct 1).  The error slot was still null when the
readiness latch first fired (conjunct 2), so the controller's one-time
post-readiness check in `setUpClass` completes successfully and never
observes the late error (conjunct 3). -/
theorem run_late_error_not_observed (e : Nat) (s : StoppableWSGIServer) :
    (LiveServerThread.run (.serveError e s) =
      { is_ready := true, error := some e, httpd := some s }) ∧
    (errorAtReady (.serveError e s) = none) ∧
    (LiveServerTestCase.setUpClass [] none (.serveError e s) =
      (.ok "localhost" 8081, true)) := by
  refine ⟨rfl, rfl, ?_⟩
  have hmem : hasInMemorySqlite [] = false := by decide
  have hsplit : pySplitColon "localhost:8081" = ["localhost", "8081"] := by decide
  have hint : pyInt "8081" = some 8081 := by decide
  simp [LiveServerTestCase.setUpClass, hmem, hsplit, hint, errorAtReady]

/-- Claim C6: when the address specification splits on `:` into anything but
exactly two parts, `setUpClass` raises `ImproperlyConfigured` naming the
invalid address, before the server thread is started (second component
`false`); when the split yields exactly two parts, the parsing step raises no
configuration error. -/
theorem setUpClass_address_parse_spec (conns : List DBConn) (env : Option String)
    (ev : RunEvent) (hmem : hasInMemorySqlite conns = false) :
    ((pySplitColon (env.getD "localhost:8081")).length ≠ 2 →
      LiveServerTestCase.setUpClass conns env ev =
        (.improperlyConfigured
          ("Invalid address (\x22" ++ env.getD "localhost:8081" ++
            "\x22) for live server."), false)) ∧
    ((pySplitColon (env.getD "localhost:8081")).length = 2 →
      (LiveServerTestCase.setUpClass conns env ev).1.isImproperlyConfigured = false) := by
  constructor
  · intro hlen
    unfold LiveServerTestCase.setUpClass
    rw [hmem]
    simp only [Bool.false_eq_true, if_false]
    split
    · rename_i host portStr heq
      rw [heq] at hlen
      simp at hlen
    · rfl
  · intro hlen
    unfold LiveServerTestCase.setUpClass
    rw [hmem]
    simp only [Bool.false_eq_true, if_false]
    split
    · split
      · rfl
      · split <;> rfl
    · rename_i h
      obtain ⟨a, b, hab⟩ := List.length_eq_two.mp hlen
      exact absurd hab (h a b)

/-- Witness for C6: the spec `"localhost"` has no colon, so the split yields
one part and `setUpClass` fails with the configuration error without
starting the thread. -/
theorem setUpClass_address_parse_spec_witness :
    LiveServerTestCase.setUpClass [] (some "localhost")
        (.serveReturns { serving := false, is_shut_down := true,
                         socket_closed := false, handled := 0 }) =
      (.improperlyConfigured
        ("Invalid address (\x22" ++ (some "localhost").getD "localhost:8081" ++
          "\x22) for live server."), false) :=
  (setUpClass_address_parse_spec [] (some "localhost")
      (.serveReturns { serving := false, is_shut_down := true,
                       socket_closed := false, handled := 0 })
      (by decide)).1 (by decide)

/-- Claim C8: when some database connection uses the sqlite3 engine with
name `:memory:`, `setUpClass` raises `NotImplementedError` before starting
the server thread; when no connection is in-memory sqlite, the check raises
nothing (no `NotImplementedError` can come out of the call). -/
theorem setUpClass_in_memory_spec (conns : List DBConn) (env : Option String)
    (ev : RunEvent) :
    (hasInMemorySqlite conns = true →
      LiveServerTestCase.setUpClass conns env ev =
        (.notImplementedError inMemoryMessage, false)) ∧
    (hasInMemorySqlite conns = false →
      (LiveServerTestCase.setUpClass conns env ev).1.isNotImplemented = false) := by
  constructor
  · intro hmem
    unfold LiveServerTestCase.setUpClass
    rw [hmem]
    rfl
  · intro hmem
    unfold LiveServerTestCase.setUpClass
    rw [hmem]
    simp only [Bool.false_eq_true, if_false]
    split
    · split
      · rfl
      · split <;> rfl
    · rfl

/-- Witness for C8: a configuration whose only connection is in-memory
sqlite is rejected with the `NotImplementedError`, thread not started. -/
theorem setUpClass_in_memory_spec_witness :
    LiveServerTestCase.setUpClass
        [{ engine := "django.db.backends.sqlite3", name := ":memory:" }] none
        (.serveReturns { serving := false, is_shut_down := true,
                         socket_closed := false, handled := 0 }) =
      (.notImplementedError inMemoryMessage, false) :=
  (setUpClass_in_memory_spec
      [{ engine := "django.db.backends.sqlite3", name := ":memory:" }] none
      (.serveReturns { serving := false, is_shut_down := true,
                       socket_closed := false, handled := 0 })).1 (by decide)

/-- Claim C10 (implicit): when the address specification splits into exactly
two parts but the port part is not a decimal integer, `setUpClass` raises
not the configuration error but the `ValueError` from `int(port)` — the
conversion sits outside the guarded parsing step — and the thread is still
not started. -/
theorem setUpClass_port_not_int_spec (conns : List DBConn) (env : Option String)
    (ev : RunEvent) (host portStr : String)
    (hmem : hasInMemorySqlite conns = false)
    (hsplit : pySplitColon (env.getD "localhost:8081") = [host, portStr])
    (hport : pyInt portStr = none) :
    LiveServerTestCase.setUpClass conns env ev = (.valueError portStr, false) ∧
    SetUpResult.isImproperlyConfigured (.valueError portStr) = false := by
  refine ⟨?_, rfl⟩
  unfold LiveServerTestCase.setUpClass
  rw [hmem]
  simp only [Bool.false_eq_true, if_false, hsplit, hport]

/-- Witness for C10: the spec `"localhost:abc"` splits into two parts whose
port part is not numeric, so `setUpClass` terminates with the `ValueError`
for `"abc"` and no thread start. -/
theorem setUpClass_port_not_int_spec_witness :
    LiveServerTestCase.setUpClass [] (some "localhost:abc")
        (.serveReturns { serving := false, is_shut_down := true,
                         socket_closed := false, handled := 0 }) =
      (.valueError "abc", false) :=
  (setUpClass_port_not_int_spec [] (some "localhost:abc")
      (.serveReturns { serving := false, is_shut_down := true,
                       socket_closed := false, handled := 0 })
      "localhost" "abc" (by decide) (by decide) (by decide)).1

/-- Claim C7 counterexample: after a first teardown of a normally stopped
server, the `httpd` reference is still present — `join` never removes it —
and the second `join` call does invoke `shutdown` and `server_close` again,
contradicting the claim that on the second call there is no server reference
and no shutdown or socket close is performed. -/
theorem join_second_call_counterexample :
    (LiveServerThread.join
        { is_ready := true, error := none,
          httpd := some { serving := false, is_shut_down := true,
                          socket_closed := false, handled := 5 } }
        none).thread.httpd.isSome = true ∧
    (LiveServerThread.join
        (LiveServerThread.join
            { is_ready := true, error := none,
              httpd := some { serving := false, is_shut_down := true,
                              socket_closed := false, handled := 5 } }
            none).thread
        none).called_shutdown = true ∧
    (LiveServerThread.join
        (LiveServerThread.join
            { is_ready := true, error := none,
              httpd := some { serving := false, is_shut_down := true,
                              socket_closed := false, handled := 5 } }
            none).thread
        none).called_server_close = true := by
  decide

/-- Claim C7 (amended): calling the teardown twice raises nothing and is
idempotent in effect, but not through absence of the server reference: when
a first `join` returns without raising, the second `join` also raises
nothing and leaves the thread state exactly as the first left it, yet it
performs a redundant `shutdown`/`server_close` exactly when the server
reference exists — the reference persists, and the second `shutdown` returns
immediately because the shutdown-complete latch remains set from the first
loop exit.  The no-reference guard only covers threads whose setup never
assigned `httpd`. -/
theorem join_twice_idempotent (t : LiveServerThread) (setAt setAt' : Option Nat)
    (h : (LiveServerThread.join t setAt).raised = none) :
    (LiveServerThread.join (LiveServerThread.join t setAt).thread setAt').raised
        = none ∧
    (LiveServerThread.join (LiveServerThread.join t setAt).thread setAt').thread
        = (LiveServerThread.join t setAt).thread ∧
    (LiveServerThread.join (LiveServerThread.join t setAt).thread setAt').called_shutdown
        = t.httpd.isSome := by
  obtain ⟨ir, err, httpd⟩ := t
  cases httpd with
  | none => exact ⟨rfl, rfl, rfl⟩
  | some s =>
      obtain ⟨sv, latch, sc, hd⟩ := s
      cases latch
      · cases setAt with
        | none =>
            simp [LiveServerThread.join, StoppableWSGIServer.shutdown,
              ImprovedEvent.wait, condWait, flagValueAt] at h
        | some u =>
            by_cases hu : u ≤ 2
            · simp [LiveServerThread.join, StoppableWSGIServer.shutdown,
                ImprovedEvent.wait, condWait, flagValueAt, Nat.le_min, hu]
            · simp [LiveServerThread.join, StoppableWSGIServer.shutdown,
                ImprovedEvent.wait, condWait, flagValueAt, Nat.le_min, hu] at h
      · simp [LiveServerThread.join, StoppableWSGIServer.shutdown,
          ImprovedEvent.wait, condWait, flagValueAt]

/-- Witness for the amended C7: a thread holding a normally stopped server;
the first teardown raises nothing, and so does the second. -/
theorem join_twice_idempotent_witness :
    (LiveServerThread.join
        (LiveServerThread.join
            { is_ready := true, error := none,
              httpd := some { serving := false, is_shut_down := true,
                              socket_closed := false, handled := 7 } }
            none).thread
        none).raised = none :=
  (join_twice_idempotent
      { is_ready := true, error := none,
        httpd := some { serving := false, is_shut_down := true,
                        socket_closed := false, handled := 7 } }
      none none (by decide)).1
